import Mathlib

/-!
Verification development for the vhost-user-input backend
(src/main.rs, src/lib.rs).

The Rust source is embedded shallowly:

* `VirtioInputConfig`, `VirtioInputAbsInfo`, `VirtioInputDevIDs` mirror the
  structs of src/main.rs; machine integers become `Nat` (no arithmetic is
  performed on them, so no modular reduction is needed).
* The byte layout of the packed config structs is modelled by lists of
  (field name, byte size) pairs, with offsets computed by sequential
  summation exactly as Rust's repr(C, packed) lays fields out with no
  padding.
* The virtqueue (`Vring`) is modelled by the list of descriptor-chain heads
  currently visible on the available ring, a schedule of chains that the
  guest publishes while a processing pass is running (one batch per pass,
  appearing once the pass has exhausted its availability checks), the chains
  popped so far, the used-ring entries published by the device, and the
  event records written into guest buffers.  The source's `process_queue`
  pops every available chain (its `while let` loop over the queue iterator)
  and never writes guest memory nor publishes used entries, which the model
  reproduces literally.
* `handle_event`, `get_config`, `set_config`, `features`,
  `protocol_features`, `set_event_idx` are translated from the
  `VhostUserBackend` impl in src/main.rs.  Constants of the external
  crates (`virtio_bindings`, `vhost`, `epoll`) are given their crate
  values.
-/

namespace VhostUserInput

/-- Constant from src/main.rs: config-space select code for the device name
string (0x01). -/
def VIRTIO_INPUT_CFG_ID_NAME : Nat := 0x01

/-- Constant from src/main.rs: config-space select code for the serial
string (0x02). -/
def VIRTIO_INPUT_CFG_ID_SERIAL : Nat := 0x02

/-- Constant from src/main.rs: config-space select code for device IDs
(0x03). -/
def VIRTIO_INPUT_CFG_ID_DEVIDS : Nat := 0x03

/-- Constant from src/main.rs: config-space select code for property
bitmaps (0x10). -/
def VIRTIO_INPUT_CFG_PROP_BITS : Nat := 0x10

/-- Constant from src/main.rs: config-space select code for event-type
bitmaps (0x11). -/
def VIRTIO_INPUT_CFG_EV_BITS : Nat := 0x11

/-- Constant from src/main.rs: config-space select code for absolute-axis
info (0x12). -/
def VIRTIO_INPUT_CFG_ABS_INFO : Nat := 0x12

/-- Bit position of the VIRTIO "version 1" feature, from the
virtio_bindings crate (VIRTIO_F_VERSION_1 = 32). -/
def VIRTIO_F_VERSION_1 : Nat := 32

/-- Feature word of VhostUserVirtioFeatures::PROTOCOL_FEATURES from the
vhost crate: bit 30. -/
def PROTOCOL_FEATURES_BITS : Nat := 1 <<< 30

/-- Bit mask of VhostUserProtocolFeatures::MQ from the vhost crate
(multi-queue protocol feature, bit 0). -/
def ProtocolFeature.MQ : Nat := 0x001

/-- Bit mask of VhostUserProtocolFeatures::CONFIG from the vhost crate
(config-space access protocol feature, bit 9). -/
def ProtocolFeature.CONFIG : Nat := 0x200

/-- Value of epoll::Events::EPOLLIN (0x001), the "buffer available"
notification kind `handle_event` expects. -/
def EPOLLIN : Nat := 0x001

/-- src/main.rs `VirtioInputAbsInfo`: five u32 fields. -/
structure VirtioInputAbsInfo where
  min : Nat
  max : Nat
  fuzz : Nat
  flat : Nat
  res : Nat
deriving DecidableEq

/-- src/main.rs `VirtioInputDevIDs`: four u16 fields. -/
structure VirtioInputDevIDs where
  bustype : Nat
  vendor : Nat
  product : Nat
  version : Nat
deriving DecidableEq

/-- src/main.rs `VirtioInputConfig` (repr(C, packed)): select, subsel,
size, a 5-byte reserved block, then consecutive (non-overlapping) fields
string ([char; 128]), bitmap ([u8; 128]), abs, ids. -/
structure VirtioInputConfig where
  select : Nat
  subsel : Nat
  size : Nat
  reserved : List Nat
  string : List Char
  bitmap : List Nat
  abs : VirtioInputAbsInfo
  ids : VirtioInputDevIDs
deriving DecidableEq

/-- Byte layout of src/main.rs `VirtioInputConfig` under `#[repr(C, packed)]`
as a (field name, byte size) list: u8 is 1 byte, `[u8; n]` is n bytes, a
Rust `char` is 4 bytes so `[char; 128]` is 512 bytes, `VirtioInputAbsInfo`
is five u32 = 20 bytes, `VirtioInputDevIDs` is four u16 = 8 bytes.  packed
layout places fields consecutively with no padding. -/
def mainConfigLayout : List (String × Nat) :=
  [("select", 1), ("subsel", 1), ("size", 1), ("reserved", 5),
   ("string", 128 * 4), ("bitmap", 128), ("abs", 20), ("ids", 8)]

/-- Byte layout of src/lib.rs `VirtioInputConfig` under
`#[repr(C, packed)]`: only select, subsel, size and the 5 reserved bytes
(the 128-byte payload union field is commented out). -/
def libConfigLayout : List (String × Nat) :=
  [("select", 1), ("subsel", 1), ("size", 1), ("reserved", 5)]

/-- Modelled from the spec words, for comparison with the layouts read off
the source: the claimed config-space layout `[select:1][subsel:1][size:1]`
followed directly by a 128-byte payload at offsets 3..131. -/
def claimedConfigLayout : List (String × Nat) :=
  [("select", 1), ("subsel", 1), ("size", 1), ("payload", 128)]

/-- Total byte size of a packed (no padding) field list. -/
def packedSize (fields : List (String × Nat)) : Nat :=
  (fields.map Prod.snd).sum

/-- Byte offset of a field in a packed (no padding) field list: fields are
laid out consecutively in declaration order. -/
def packedOffset : List (String × Nat) → String → Option Nat
  | [], _ => none
  | (n, s) :: rest, f =>
    if n = f then some 0 else (packedOffset rest f).map (fun o => o + s)

/-- src/main.rs `VirtioInputEvent`: the 8-byte wire record
(type:u16, code:u16, value:u32). -/
structure VirtioInputEvent where
  event_type : Nat
  code : Nat
  value : Nat
deriving DecidableEq

/-- src/main.rs `VhostUserInputThread` (the eventfd handles are OS
resources outside the model; the only state the backend logic reads is
`event_idx`). -/
structure VhostUserInputThread where
  event_idx : Bool
deriving DecidableEq

/-- src/main.rs `VhostUserInputBackend`. -/
structure VhostUserInputBackend where
  thread : VhostUserInputThread
  config : VirtioInputConfig
  queues_per_thread : List Nat
  num_queues : Nat
  queue_size : Nat
deriving DecidableEq

/-- src/main.rs `VhostUserInputThread::new` followed by
`VhostUserInputBackend::new`: event_idx starts false, the config starts
with zero select/subsel/size, zeroed reserved bytes, a string of 128 'x'
characters, a zeroed bitmap, and Default (all-zero) abs and ids;
queues_per_thread starts empty. -/
def VhostUserInputBackend.new (num_queues queue_size : Nat) :
    VhostUserInputBackend :=
  { thread := { event_idx := false }
    config :=
      { select := 0
        subsel := 0
        size := 0
        reserved := List.replicate 5 0
        string := List.replicate 128 'x'
        bitmap := List.replicate 128 0
        abs := ⟨0, 0, 0, 0, 0⟩
        ids := ⟨0, 0, 0, 0⟩ }
    queues_per_thread := []
    num_queues := num_queues
    queue_size := queue_size }

/-- Model of the guest-visible state of one virtqueue (a `Vring`).
`avail` lists the descriptor-chain heads currently on the available ring;
`arrivals` schedules the batches the guest publishes while successive
processing passes run (batch k becomes visible after pass k has seen an
empty iterator); `consumed` records the chains popped off the available
ring; `used` records the used-ring entries the device publishes; `writes`
records the event records the device writes into guest buffers.  The
source never publishes used entries and never writes guest buffers, so no
model operation extends `used` or `writes`. -/
structure Vring where
  avail : List Nat
  arrivals : List (List Nat)
  consumed : List Nat
  used : List Nat
  writes : List VirtioInputEvent
deriving DecidableEq

/-- src/main.rs `VhostUserInputThread::process_queue`: the `while let`
loop pops every chain the queue iterator yields (printing a line for
each), sets `used_any` exactly when at least one chain was popped, and
returns `used_any`.  It writes nothing into guest memory and adds nothing
to the used ring.  After the pass exhausts its availability checks, the
next scheduled guest batch (if any) becomes the new available set. -/
def process_queue (v : Vring) : Bool × Vring :=
  (!v.avail.isEmpty,
    { avail := v.arrivals.headD []
      arrivals := v.arrivals.tail
      consumed := v.consumed ++ v.avail
      used := v.used
      writes := v.writes })

/-- The event-index branch of src/main.rs `handle_event`:
`loop { vring.mut_queue(); if !thread.process_queue(&mut vring) { break } }`
— keep running passes until a pass pops nothing. -/
def drain_event_idx (v : Vring) : Vring :=
  if h : (process_queue v).1 = true then drain_event_idx (process_queue v).2
  else (process_queue v).2
termination_by v.arrivals.flatten.length + v.arrivals.length + v.avail.length
decreasing_by
  simp only [process_queue, Bool.not_eq_true', List.isEmpty_iff] at h
  have hav : 0 < v.avail.length := List.length_pos.mpr (by simpa using h)
  dsimp only [process_queue]
  cases har : v.arrivals with
  | nil =>
    simp only [har, List.headD_nil, List.tail_nil, List.flatten_nil,
      List.length_nil]
    omega
  | cons hd tl =>
    simp only [har, List.headD_cons, List.tail_cons, List.flatten_cons,
      List.length_append, List.length_cons]
    omega

/-- Errors of src/main.rs `enum Error` that `handle_event` can return
(converted to io::Error at the boundary). -/
inductive HandleError where
  | handleEventNotEpollIn
  | handleEventUnknownEvent
deriving DecidableEq

/-- src/main.rs `VhostUserInputBackend::handle_event`: reject any epoll
event set other than EPOLLIN; on device_event 0 lock the thread, take
vrings[0] and run the event-index loop or a single pass, answering
Ok(false); reject any other device_event.  The backend value is returned
alongside to make state preservation explicit (the source takes &self and
never writes any backend field here). -/
def handle_event (b : VhostUserInputBackend) (device_event : Nat)
    (evset : Nat) (vring : Vring) :
    VhostUserInputBackend × Vring × Except HandleError Bool :=
  if evset ≠ EPOLLIN then
    (b, vring, .error .handleEventNotEpollIn)
  else
    match device_event with
    | 0 =>
      let v2 :=
        if b.thread.event_idx then drain_event_idx vring
        else (process_queue vring).2
      (b, v2, .ok false)
    | _ + 1 => (b, vring, .error .handleEventUnknownEvent)

/-- src/main.rs `VhostUserBackend::features` for the input backend. -/
def features (_b : VhostUserInputBackend) : Nat :=
  (1 <<< VIRTIO_F_VERSION_1) |||
  (1 <<< VIRTIO_INPUT_CFG_ID_NAME) |||
  (1 <<< VIRTIO_INPUT_CFG_ID_SERIAL) |||
  (1 <<< VIRTIO_INPUT_CFG_ID_DEVIDS) |||
  (1 <<< VIRTIO_INPUT_CFG_PROP_BITS) |||
  (1 <<< VIRTIO_INPUT_CFG_EV_BITS) |||
  (1 <<< VIRTIO_INPUT_CFG_ABS_INFO) |||
  PROTOCOL_FEATURES_BITS

/-- src/main.rs `VhostUserBackend::protocol_features`: returns
VhostUserProtocolFeatures::CONFIG only. -/
def protocol_features (_b : VhostUserInputBackend) : Nat :=
  ProtocolFeature.CONFIG

/-- src/main.rs `VhostUserBackend::set_event_idx`. -/
def set_event_idx (b : VhostUserInputBackend) (enabled : Bool) :
    VhostUserInputBackend :=
  { b with thread := { b.thread with event_idx := enabled } }

/-- src/main.rs `VhostUserBackend::get_config`: ignores offset and size
and returns `Vec::new()` — the empty byte vector (the code reading from
the config struct is commented out). -/
def get_config (_b : VhostUserInputBackend) (_offset _size : Nat) :
    List Nat :=
  []

/-- The io::Error values set_config could surface (the commented-out
bounds check would use EINVAL). -/
inductive IoError where
  | einval
deriving DecidableEq

/-- src/main.rs `VhostUserBackend::set_config`: the whole body (bounds
check and copy) is commented out; it returns Ok(()) and leaves the backend
untouched for every offset and buffer. -/
def set_config (b : VhostUserInputBackend) (_offset : Nat)
    (_buf : List Nat) : VhostUserInputBackend × Except IoError Unit :=
  (b, .ok ())

/-- One-step unfolding of the event-index drain loop. -/
theorem drain_event_idx_eq (v : Vring) :
    drain_event_idx v =
      if (process_queue v).1 = true then drain_event_idx (process_queue v).2
      else (process_queue v).2 := by
  rw [drain_event_idx]
  split <;> rfl

/-- Behaviour of the event-index drain loop when the first pass starts
with a nonempty available set and the guest publishes one more chain while
that pass runs: three passes occur, everything is popped. -/
theorem drain_event_idx_two_batches (A : List Nat) (d : Nat)
    (C U : List Nat) (W : List VirtioInputEvent) (hA : A.isEmpty = false) :
    drain_event_idx ⟨A, [[d]], C, U, W⟩ =
      ⟨[], [], (C ++ A) ++ [d], U, W⟩ := by
  rw [drain_event_idx_eq]
  simp only [process_queue, hA, Bool.not_false, if_true]
  rw [drain_event_idx_eq]
  simp only [process_queue, List.isEmpty_cons, Bool.not_false, if_true,
    List.headD_cons, List.tail_cons]
  rw [drain_event_idx_eq]
  simp [process_queue]

/-- Claim C1: with one available descriptor chain (head 7) and pending
host events, a kick dispatch pops the chain (`consumed = [7]`) but writes
no event record into any guest buffer (`writes = []`) and publishes no
used entry (`used = []`); the claim expects exactly one event delivered
into a guest buffer. -/
theorem process_queue_delivers_no_events :
    handle_event (VhostUserInputBackend.new 1 1024) 0 EPOLLIN
        ⟨[7], [], [], [], []⟩ =
      (VhostUserInputBackend.new 1 1024,
        ⟨[], [], [7], [], []⟩, .ok false) := by
  rfl

/-- Claim C2 (counterexample): neither config struct of the source has the
claimed layout `[select:1][subsel:1][size:1][payload:128]` (total 131
bytes): the main.rs struct is 676 bytes with a 5-byte reserved block at
offset 3, and the lib.rs struct is 8 bytes. -/
theorem config_layout_not_as_claimed :
    mainConfigLayout ≠ claimedConfigLayout ∧
    libConfigLayout ≠ claimedConfigLayout ∧
    packedSize claimedConfigLayout = 131 ∧
    packedSize mainConfigLayout = 676 ∧
    packedSize libConfigLayout = 8 ∧
    packedOffset mainConfigLayout "reserved" = some 3 := by
  decide

/-- Claim C2 (amended): the packed main.rs config layout is select at 0,
subsel at 1, size at 2, reserved (5 bytes) at 3, string (512 bytes) at 8,
bitmap (128 bytes) at 520, abs (20 bytes) at 648, ids (8 bytes) at 668,
total 676 bytes; the packed lib.rs layout is select 0, subsel 1, size 2,
reserved 3, total 8 bytes; no padding anywhere. -/
theorem config_layout_actual :
    packedOffset mainConfigLayout "select" = some 0 ∧
    packedOffset mainConfigLayout "subsel" = some 1 ∧
    packedOffset mainConfigLayout "size" = some 2 ∧
    packedOffset mainConfigLayout "reserved" = some 3 ∧
    packedOffset mainConfigLayout "string" = some 8 ∧
    packedOffset mainConfigLayout "bitmap" = some 520 ∧
    packedOffset mainConfigLayout "abs" = some 648 ∧
    packedOffset mainConfigLayout "ids" = some 668 ∧
    packedSize mainConfigLayout = 676 ∧
    packedOffset libConfigLayout "select" = some 0 ∧
    packedOffset libConfigLayout "subsel" = some 1 ∧
    packedOffset libConfigLayout "size" = some 2 ∧
    packedOffset libConfigLayout "reserved" = some 3 ∧
    packedSize libConfigLayout = 8 := by
  decide

/-- Claim C3: `get_config` never returns the requested bytes and never
reports OutOfRange: it returns the empty byte vector for every offset and
length, in particular for the in-range read (0, 3) where the claim
requires the three bytes select, subsel, size. -/
theorem get_config_returns_empty :
    get_config (VhostUserInputBackend.new 1 1024) 0 3 = [] ∧
    ∀ offset size,
      get_config (VhostUserInputBackend.new 1 1024) offset size = [] :=
  ⟨rfl, fun _ _ => rfl⟩

/-- Claim C4: a config write of one byte at offset 676 — past the end of
the 676-byte packed config struct — succeeds with Ok(()) instead of
failing with the invalid-argument condition (the bounds check in the
source is commented out). -/
theorem set_config_out_of_range_succeeds :
    set_config (VhostUserInputBackend.new 1 1024) 676 [0] =
      (VhostUserInputBackend.new 1 1024, .ok ()) := by
  rfl

/-- Claim C5: the advertised feature word does contain the version-1 bit
(32) and the protocol-features marker (bit 30), but it also contains bits
1, 2, 3, 16, 17 and 18 — obtained by shifting by the config-space select
codes VIRTIO_INPUT_CFG_* — while the capability-query behaviour behind
them is unimplemented: `get_config` returns no bytes for every request. -/
theorem features_advertises_unimplemented_bits :
    (Nat.testBit (features (VhostUserInputBackend.new 1 1024))
        VIRTIO_F_VERSION_1 = true ∧
      Nat.testBit (features (VhostUserInputBackend.new 1 1024)) 30 = true ∧
      Nat.testBit (features (VhostUserInputBackend.new 1 1024)) 1 = true ∧
      Nat.testBit (features (VhostUserInputBackend.new 1 1024)) 2 = true ∧
      Nat.testBit (features (VhostUserInputBackend.new 1 1024)) 3 = true ∧
      Nat.testBit (features (VhostUserInputBackend.new 1 1024)) 16 = true ∧
      Nat.testBit (features (VhostUserInputBackend.new 1 1024)) 17 = true ∧
      Nat.testBit (features (VhostUserInputBackend.new 1 1024)) 18 = true) ∧
    ∀ offset size,
      get_config (VhostUserInputBackend.new 1 1024) offset size = [] :=
  ⟨by decide, fun _ _ => rfl⟩

/-- Claim C6 (counterexample): the protocol-feature set does not contain
both the multi-queue flag and the config flag — the MQ bit is absent. -/
theorem protocol_features_missing_mq :
    ¬ (protocol_features (VhostUserInputBackend.new 1 1024) &&&
          ProtocolFeature.MQ ≠ 0 ∧
       protocol_features (VhostUserInputBackend.new 1 1024) &&&
          ProtocolFeature.CONFIG ≠ 0) := by
  decide

/-- Claim C6 (amended): `protocol_features` returns exactly the CONFIG
(config-space access) flag: CONFIG is contained, MQ is not. -/
theorem protocol_features_config_only (b : VhostUserInputBackend) :
    protocol_features b = ProtocolFeature.CONFIG ∧
    protocol_features b &&& ProtocolFeature.CONFIG ≠ 0 ∧
    protocol_features b &&& ProtocolFeature.MQ = 0 := by
  refine ⟨rfl, ?_, ?_⟩
  · show ProtocolFeature.CONFIG &&& ProtocolFeature.CONFIG ≠ 0
    decide
  · show ProtocolFeature.CONFIG &&& ProtocolFeature.MQ = 0
    decide

/-- Claim C7: for a backend with at least one queue, `handle_event`
rejects any event set other than EPOLLIN with HandleEventNotEpollIn, and
rejects (given the EPOLLIN event set) any device_event outside the queue
range with HandleEventUnknownEvent; in both error cases the backend state
and the vring are returned unchanged. -/
theorem handle_event_error_cases (b : VhostUserInputBackend)
    (device_event evset : Nat) (vring : Vring) (hq : 0 < b.num_queues) :
    (evset ≠ EPOLLIN →
      handle_event b device_event evset vring =
        (b, vring, .error .handleEventNotEpollIn)) ∧
    (evset = EPOLLIN → b.num_queues ≤ device_event →
      handle_event b device_event evset vring =
        (b, vring, .error .handleEventUnknownEvent)) := by
  constructor
  · intro h
    simp [handle_event, h]
  · intro he hd
    unfold handle_event
    rw [if_neg (by simp [he])]
    cases device_event with
    | zero => omega
    | succ n => rfl

/-- Witness for claim C7 at concrete inputs: event set 4 (EPOLLOUT-like,
not EPOLLIN) is rejected as NotEpollIn, and device_event 3 on the
one-queue backend is rejected as UnknownEvent, both leaving the state
unchanged. -/
theorem handle_event_error_cases_witness :
    handle_event (VhostUserInputBackend.new 1 1024) 0 4
        ⟨[], [], [], [], []⟩ =
      (VhostUserInputBackend.new 1 1024, ⟨[], [], [], [], []⟩,
        .error .handleEventNotEpollIn) ∧
    handle_event (VhostUserInputBackend.new 1 1024) 3 EPOLLIN
        ⟨[], [], [], [], []⟩ =
      (VhostUserInputBackend.new 1 1024, ⟨[], [], [], [], []⟩,
        .error .handleEventUnknownEvent) :=
  ⟨(handle_event_error_cases (VhostUserInputBackend.new 1 1024) 0 4
      ⟨[], [], [], [], []⟩ (by decide)).1 (by decide),
   (handle_event_error_cases (VhostUserInputBackend.new 1 1024) 3 EPOLLIN
      ⟨[], [], [], [], []⟩ (by decide)).2 rfl (by decide)⟩

/-- Claim C8: starting from a nonempty available set A, with one chain d
becoming available while the first pass runs (after its last availability
check), a kick dispatch with event-index mode enabled keeps looping and
pops d within the same invocation (final available set empty, d popped);
with event-index mode disabled a single pass runs and d is left on the
available ring for the next kick. -/
theorem drain_event_idx_recheck (b : VhostUserInputBackend)
    (A : List Nat) (d : Nat) (C U : List Nat) (W : List VirtioInputEvent)
    (hA : A ≠ []) :
    (b.thread.event_idx = true →
      handle_event b 0 EPOLLIN ⟨A, [[d]], C, U, W⟩ =
        (b, ⟨[], [], C ++ A ++ [d], U, W⟩, .ok false)) ∧
    (b.thread.event_idx = false →
      handle_event b 0 EPOLLIN ⟨A, [[d]], C, U, W⟩ =
        (b, ⟨[d], [], C ++ A, U, W⟩, .ok false)) := by
  have hA2 : A.isEmpty = false := by
    simpa [List.isEmpty_iff] using hA
  constructor
  · intro hidx
    have h2 := drain_event_idx_two_batches A d C U W hA2
    simp [handle_event, hidx, h2, List.append_assoc]
  · intro hidx
    simp [handle_event, hidx, process_queue]

/-- Witness for claim C8 at concrete inputs: available chain 5, late
chain 9; with event-index enabled both get popped in one dispatch, with it
disabled only 5 is popped and 9 stays available. -/
theorem drain_event_idx_recheck_witness :
    handle_event (set_event_idx (VhostUserInputBackend.new 1 1024) true) 0
        EPOLLIN ⟨[5], [[9]], [], [], []⟩ =
      (set_event_idx (VhostUserInputBackend.new 1 1024) true,
        ⟨[], [], [5, 9], [], []⟩, .ok false) ∧
    handle_event (VhostUserInputBackend.new 1 1024) 0
        EPOLLIN ⟨[5], [[9]], [], [], []⟩ =
      (VhostUserInputBackend.new 1 1024,
        ⟨[9], [], [5], [], []⟩, .ok false) :=
  ⟨(drain_event_idx_recheck (set_event_idx (VhostUserInputBackend.new 1 1024)
      true) [5] 9 [] [] [] (by decide)).1 rfl,
   (drain_event_idx_recheck (VhostUserInputBackend.new 1 1024)
      [5] 9 [] [] [] (by decide)).2 rfl⟩

/-- Claim C9 (counterexample): on a dispatch that pops one descriptor
chain (head 7), `handle_event` still answers Ok(false) — the claim that a
false consumed flag implies nothing was consumed fails at this input. -/
theorem handle_event_false_despite_consumption :
    ¬ ((handle_event (VhostUserInputBackend.new 1 1024) 0 EPOLLIN
          ⟨[7], [], [], [], []⟩).2.2 = .ok false →
        (handle_event (VhostUserInputBackend.new 1 1024) 0 EPOLLIN
          ⟨[7], [], [], [], []⟩).2.1.consumed = []) :=
  fun himp => nomatch himp rfl

/-- Claim C9 (amended): every successful `handle_event` dispatch returns
the flag false, no matter how many chains were consumed; the only other
outcomes are the two errors. -/
theorem handle_event_success_always_false (b : VhostUserInputBackend)
    (device_event evset : Nat) (vring : Vring) :
    (handle_event b device_event evset vring).2.2 = .ok false ∨
    (handle_event b device_event evset vring).2.2 =
      .error .handleEventNotEpollIn ∨
    (handle_event b device_event evset vring).2.2 =
      .error .handleEventUnknownEvent := by
  unfold handle_event
  split
  · exact .inr (.inl rfl)
  · cases device_event with
    | zero => exact .inl rfl
    | succ n => exact .inr (.inr rfl)

/-- Claim C10: `set_config` returns Ok(()) for every offset and buffer and
leaves the whole backend unchanged — config register, event-index flag,
queue counts and queue-to-thread assignment included. -/
theorem set_config_is_noop (b : VhostUserInputBackend) (offset : Nat)
    (buf : List Nat) :
    set_config b offset buf = (b, .ok ()) ∧
    (set_config b offset buf).1.config = b.config ∧
    (set_config b offset buf).1.thread.event_idx = b.thread.event_idx ∧
    (set_config b offset buf).1.num_queues = b.num_queues ∧
    (set_config b offset buf).1.queue_size = b.queue_size ∧
    (set_config b offset buf).1.queues_per_thread = b.queues_per_thread :=
  ⟨rfl, rfl, rfl, rfl, rfl, rfl⟩

end VhostUserInput
